import Mathlib

set_option linter.unusedVariables false

/-!
Verification of the password-reset service of noddit-server
(src/src/password-reset/password-reset.service.ts) against its
natural-language specification.

The service is embedded shallowly: the TypeORM repositories become an
explicit `Store` value, the asynchronous effects (argon2 hashing, random
token generation, DB-assigned ids, row defaults, current time, mail
dispatch and save outcomes) become fields of an `Env` record, and each
service method becomes a pure function from `Env` and `Store` to an
`Outcome` holding the thrown-or-returned result, the resulting store and
the list of successfully dispatched emails.

Two pieces of library/external semantics are embedded explicitly:
* Node's `crypto.timingSafeEqual` THROWS a `RangeError` when the two
  buffers differ in byte length; it only returns a boolean when the
  lengths agree.
* A TypeORM query builder on which `.delete()` is called but `.execute()`
  is never called builds a `DeleteQueryBuilder` object and issues no SQL:
  it performs no database operation at all.
-/

namespace NodditPasswordReset

/-- `MessageResponse` from `src/shared`: the `{ message }` payload both
service methods resolve with. -/
structure MessageResponse where
  message : String
deriving Repr, DecidableEq

/-- The columns of `UserEntity` that the password-reset service reads or
writes: `id`, `email`, `password` and the soft-delete marker `deletedAt`
(`NULL` ⇔ `none`). -/
structure UserEntity where
  id : Nat
  email : String
  password : String
  deletedAt : Option String
deriving Repr, DecidableEq

/-- The columns of `PasswordResetEntity` that the service reads or writes.
`token` holds the HMAC digest of the plaintext token (never the
plaintext), `expiredAt` a timestamp string compared lexicographically
against `DateTime.local().toString()`.

Modelled from the spec where the entity file is absent from src: the
`userId` field stands for the `user` relation (`reset.user.id` in the
service is read as the row's owning-account reference). -/
structure PasswordResetEntity where
  id : Nat
  userId : Nat
  token : String
  expiredAt : String
deriving Repr, DecidableEq

/-- The backing store: the contents of the `users` table and the
`passwordreset` table. -/
structure Store where
  users : List UserEntity
  resets : List PasswordResetEntity
deriving Repr, DecidableEq

/-- An email handed to `mailerService.sendMail`. -/
structure Email where
  toAddr : String
  subject : String
  text : String
deriving Repr, DecidableEq

/-- The errors the service can throw.  `notFound` is
`NotFoundException('User not found')`, `conflict` is
`ConflictException('Password reset email has already been sent')`,
`internalServer` is `InternalServerErrorException`, `invalidToken` is
`BadRequestException('Invalid password reset token')`, `cryptoRangeError`
is the `RangeError` Node's `timingSafeEqual` throws on a byte-length
mismatch (uncaught by the service), `mailError` a rejected
`mailerService.sendMail`, and `dbError` a rejected repository save. -/
inductive Err where
  | notFound
  | conflict
  | internalServer
  | invalidToken
  | cryptoRangeError
  | mailError
  | dbError
deriving Repr, DecidableEq

deriving instance DecidableEq for Except

/-- The ambient effects of one service call.

`hmacSha256 secret msg` abstracts
`createHmac('sha256', secret).update(msg).digest('hex')`; `argonHash`
abstracts `argon2.hash`; `now` is `DateTime.local().toString()`;
`freshToken` is the value `randomBytes(32).toString('hex')` produces on
this call; `freshId` is the id the store assigns to a newly saved reset
row.

`freshExpiry` is modelled from the spec: the entity file is absent from
src, and the spec states the row's expiry is set on creation to a fixed
window from the creation time.

`resetSaveOk` is whether `passwordResetRepository.save` succeeds when no
uniqueness violation occurs, `userSaveOk` whether `userRepository.save`
succeeds, `mailOk` whether `mailerService.sendMail` resolves. -/
structure Env where
  hmacSha256 : String → String → String
  hmacSecret : String
  now : String
  argonHash : String → String
  freshToken : String
  freshId : Nat
  freshExpiry : String
  host : String
  resetSaveOk : Bool
  userSaveOk : Bool
  mailOk : Bool

/-- The observable outcome of one service call: the resolved value or
thrown error, the store afterwards, and the emails actually dispatched. -/
structure Outcome where
  result : Except Err MessageResponse
  store : Store
  sent : List Email
deriving Repr, DecidableEq

/-- `plaintextToken` (service line 110): `randomBytes(32).toString('hex')`,
i.e. this call's fresh random token. -/
def plaintextToken (env : Env) : String :=
  env.freshToken

/-- `url` (service line 114): builds the emailed reset link. -/
def url (env : Env) (resetId : Nat) (tok : String) : String :=
  env.host ++ "/password/reset?id=" ++ toString resetId ++ "&token=" ++ tok

/-- `hashedToken` (service line 119): the keyed digest of the plaintext
token under the configured `hmacSecret`. -/
def hashedToken (env : Env) (tok : String) : String :=
  env.hmacSha256 env.hmacSecret tok

/-- JavaScript's `<` on two strings: lexicographic comparison of the code
units, left to right; a proper prefix of the other string compares
smaller.  The service compares the stored `expiredAt` string against
`DateTime.local().toString()` with exactly this ordering. -/
def jsStrLtChars : List Char → List Char → Bool
  | [], [] => false
  | [], _ :: _ => true
  | _ :: _, [] => false
  | a :: as, b :: bs => if a < b then true else if b < a then false else jsStrLtChars as bs

/-- JavaScript's `a < b` on strings, on `String`. -/
def jsStrLt (a b : String) : Bool :=
  jsStrLtChars a.data b.data

/-- Node's `crypto.timingSafeEqual` on `Buffer.from` of two strings: if
the UTF-8 byte lengths differ it throws a `RangeError`; otherwise it
returns whether the contents are equal (the constant-time aspect is a
timing property with no functional content). -/
def timingSafeEqual (a b : String) : Except Err Bool :=
  if a.utf8ByteSize = b.utf8ByteSize then .ok (a == b) else .error .cryptoRangeError

/-- The Token Codec verify step (service line 131): recompute the digest
of the presented plaintext token and compare it to the stored digest with
`timingSafeEqual`. -/
def verify (env : Env) (storedDigest tok : String) : Except Err Bool :=
  timingSafeEqual (hashedToken env tok) storedDigest

/-- `isResetValid` (service lines 126–132): digest comparison via
`timingSafeEqual` (which may throw), short-circuit `&&` with the strict
string comparison `expiredAt > DateTime.local().toString()`. -/
def isResetValid (env : Env) (tok : String) (reset : PasswordResetEntity) : Except Err Bool :=
  match timingSafeEqual (hashedToken env tok) reset.token with
  | .error e => .error e
  | .ok eq => .ok (eq && jsStrLt env.now reset.expiredAt)

/-- The account re-fetch of `resetPassword` (service lines 75–80): first
user row with the given id whose `deletedAt IS NULL`. -/
def findActiveById (s : Store) (uid : Nat) : Option UserEntity :=
  s.users.find? (fun u => u.id == uid && u.deletedAt.isNone)

/-- `resetUserPassword` (service lines 102–108): set the user's password
to the argon2 hash of the new password and save the row; a rejected save
rejects the whole call. -/
def resetUserPassword (env : Env) (s : Store) (user : UserEntity) (password : String) :
    Except Err (MessageResponse × Store) :=
  if env.userSaveOk then
    let newUsers := s.users.map
      (fun u => if u.id == user.id then { u with password := env.argonHash password } else u)
    .ok (⟨"Password reset successfully"⟩, { s with users := newUsers })
  else
    .error .dbError

/-- Service lines 87–90: a TypeORM query builder for the user's reset
rows on which `.delete()` is called but `.execute()` never is.  Per
TypeORM semantics this only constructs a `DeleteQueryBuilder` object and
issues no SQL, so the store is unchanged: the sibling rows are NOT
deleted. -/
def deleteSiblingsQuery (s : Store) (uid : Nat) : Store :=
  s

/-- `forgotPassword` (service lines 29–63).  `findOne({ email })`, throw
`NotFound` on absence; generate and digest a token; save the reset row,
mapping a `23505` unique violation (modelled from the spec: at most one
request per account, enforced by a uniqueness constraint on the owning
account in the entity absent from src) to `Conflict` and any other save
failure to `InternalServerError`; then send the link email (a rejected
send propagates, the saved row persists). -/
def forgotPassword (env : Env) (s : Store) (email : String) : Outcome :=
  match s.users.find? (fun u => u.email == email) with
  | none => ⟨.error .notFound, s, []⟩
  | some user =>
    let tok := plaintextToken env
    let digest := hashedToken env tok
    if s.resets.any (fun r => r.userId == user.id) then
      ⟨.error .conflict, s, []⟩
    else if env.resetSaveOk then
      let row : PasswordResetEntity := ⟨env.freshId, user.id, digest, env.freshExpiry⟩
      let s1 : Store := { s with resets := s.resets ++ [row] }
      if env.mailOk then
        ⟨.ok ⟨"Email sent to " ++ user.email⟩, s1,
          [⟨email, "Reset your password", url env env.freshId tok⟩]⟩
      else
        ⟨.error .mailError, s1, []⟩
    else
      ⟨.error .internalServer, s, []⟩

/-- `resetPassword` (service lines 65–100).  Fetch the reset row by id;
`!reset || !isResetValid(...) || !(user = ...)` collapses absence, digest
mismatch, expiry and missing/soft-deleted account into one
`BadRequestException('Invalid password reset token')` (a `timingSafeEqual`
length-mismatch throw propagates instead); on success run the password
update and the (never-executed) sibling delete query, then send the
confirmation email. -/
def resetPassword (env : Env) (s : Store) (id : Nat) (tok : String) (password : String) :
    Outcome :=
  match s.resets.find? (fun r => r.id == id) with
  | none => ⟨.error .invalidToken, s, []⟩
  | some reset =>
    match isResetValid env tok reset with
    | .error e => ⟨.error e, s, []⟩
    | .ok false => ⟨.error .invalidToken, s, []⟩
    | .ok true =>
      match findActiveById s reset.userId with
      | none => ⟨.error .invalidToken, s, []⟩
      | some user =>
        match resetUserPassword env s user password with
        | .error e => ⟨.error e, s, []⟩
        | .ok (res, s1) =>
          let s2 := deleteSiblingsQuery s1 reset.userId
          if env.mailOk then
            ⟨.ok ⟨res.message⟩, s2,
              [⟨user.email, "Password reset", "Your password was successfully reset"⟩]⟩
          else
            ⟨.error .mailError, s2, []⟩

/-! Concrete fixtures used by counterexamples and witnesses.  `envA` uses
an explicit injective keyed-digest function standing in for HMAC-SHA256,
the secret `"k"` and current time `"b"`. -/

/-- A concrete environment for evaluation. -/
def envA : Env :=
  { hmacSha256 := fun secret m => secret ++ ":" ++ m
    hmacSecret := "k"
    now := "b"
    argonHash := fun p => "argon:" ++ p
    freshToken := "t0"
    freshId := 7
    freshExpiry := "z"
    host := "h"
    resetSaveOk := true
    userSaveOk := true
    mailOk := true }

/-- `envA` with a failing mail transport. -/
def envMailFail : Env :=
  { envA with mailOk := false }

/-- A live account with id 1. -/
def userA : UserEntity :=
  ⟨1, "a@x", "oldpw", none⟩

/-- A valid, unexpired reset row for `userA` holding the digest of the
plaintext token `"tok"` under `envA` (expiry `"c"` is after now `"b"`). -/
def resetA : PasswordResetEntity :=
  ⟨5, 1, "k:tok", "c"⟩

/-- A second unexpired reset row for the same account (a sibling). -/
def resetSibling : PasswordResetEntity :=
  ⟨6, 1, "k:sib", "c"⟩

/-- Store with `userA` and the single valid row `resetA`. -/
def storeA : Store :=
  ⟨[userA], [resetA]⟩

/-- Store with `userA`, `resetA` and the sibling row. -/
def storeAB : Store :=
  ⟨[userA], [resetA, resetSibling]⟩

/-- Store with `userA` and one reset row that is already expired
(expiry `"a"` is not after now `"b"`) though its digest is exactly the
digest of `"tok"`. -/
def storeExpired : Store :=
  ⟨[userA], [⟨5, 1, "k:tok", "a"⟩]⟩

/-- Store with `userA` and no reset rows. -/
def storeU : Store :=
  ⟨[userA], []⟩

/-- The empty store. -/
def storeEmpty : Store :=
  ⟨[], []⟩

/-- C1: the claim states a successful `resetPassword` deletes the redeemed
row and all sibling rows, so redeeming the same id+token again fails with
`InvalidToken`.  The code never executes the built delete query, so the
row survives a successful redemption and the very same id+token redeems
again successfully instead of failing. -/
theorem resetPassword_replay_not_invalidated :
    (resetPassword envA storeA 5 "tok" "new1").result =
      .ok ⟨"Password reset successfully"⟩ ∧
    resetA ∈ (resetPassword envA storeA 5 "tok" "new1").store.resets ∧
    (resetPassword envA (resetPassword envA storeA 5 "tok" "new1").store 5 "tok" "new2").result =
      .ok ⟨"Password reset successfully"⟩ := by
  decide

/-- C2: the claim states the caller is told success only when both the
password update and the sibling-deletion have completed.  The code reports
success (and sends the confirmation email) although the sibling-deletion
was never issued to the store: after a reported success the sibling row is
still present. -/
theorem resetPassword_success_without_sibling_deletion :
    (resetPassword envA storeAB 5 "tok" "new1").result =
      .ok ⟨"Password reset successfully"⟩ ∧
    (resetPassword envA storeAB 5 "tok" "new1").sent =
      [⟨"a@x", "Password reset", "Your password was successfully reset"⟩] ∧
    resetSibling ∈ (resetPassword envA storeAB 5 "tok" "new1").store.resets := by
  decide

/-- C4 counterexample: the claim states verification returns false (a
normal boolean) when the plaintext token's digest and the stored digest
differ in length.  At a concrete length-mismatched input the code instead
propagates the `RangeError` thrown by `timingSafeEqual`. -/
theorem isResetValid_length_mismatch_throws :
    (hashedToken envA "t").utf8ByteSize ≠ ("x" : String).utf8ByteSize ∧
    isResetValid envA "t" ⟨5, 1, "x", "c"⟩ = .error .cryptoRangeError := by
  decide

/-- C4 amended: for every token and stored digest whose byte lengths
differ, the verification step raises the `timingSafeEqual` length error
(surfacing as a server failure) rather than returning false. -/
theorem isResetValid_length_mismatch_errors (env : Env) (tok : String)
    (r : PasswordResetEntity)
    (h : (hashedToken env tok).utf8ByteSize ≠ r.token.utf8ByteSize) :
    isResetValid env tok r = .error .cryptoRangeError := by
  simp [isResetValid, timingSafeEqual, h]

/-- Witness for the amended C4 at a concrete length-mismatched input. -/
theorem isResetValid_length_mismatch_errors_witness :
    isResetValid envA "t" ⟨6, 1, "xy", "c"⟩ = .error .cryptoRangeError :=
  isResetValid_length_mismatch_errors envA "t" ⟨6, 1, "xy", "c"⟩ (by decide)

/-- C5: whenever the reset row found by id is not strictly unexpired
(`expiredAt > now` fails), `resetPassword` fails with the generic
`InvalidToken` error even though the presented token's digest equals the
stored digest exactly; the digest comparison happens first and the account
re-fetch is never reached (the check order is the definitional order of
`isResetValid` and `resetPassword`). -/
theorem resetPassword_expired_invalidToken (env : Env) (s : Store) (id : Nat)
    (tok pw : String) (r : PasswordResetEntity)
    (hfind : s.resets.find? (fun x => x.id == id) = some r)
    (hdig : hashedToken env tok = r.token)
    (hexp : jsStrLt env.now r.expiredAt = false) :
    (resetPassword env s id tok pw).result = .error .invalidToken := by
  have htse : timingSafeEqual (hashedToken env tok) r.token = .ok true := by
    simp [timingSafeEqual, hdig]
  simp [resetPassword, hfind, isResetValid, htse, hexp]

/-- Witness for C5: an expired row whose digest matches the presented
token exactly still redeems to `InvalidToken`. -/
theorem resetPassword_expired_invalidToken_witness :
    (resetPassword envA storeExpired 5 "tok" "pw").result = .error .invalidToken :=
  resetPassword_expired_invalidToken envA storeExpired 5 "tok" "pw" ⟨5, 1, "k:tok", "a"⟩
    (by decide) (by decide) (by decide)

/-- C8: when no account carries the given email, `forgotPassword` fails
with `NotFound`, leaves the store unchanged and sends no email. -/
theorem forgotPassword_unknown_email_notFound (env : Env) (s : Store) (email : String)
    (h : s.users.find? (fun u => u.email == email) = none) :
    (forgotPassword env s email).result = .error .notFound ∧
    (forgotPassword env s email).store = s ∧
    (forgotPassword env s email).sent = [] := by
  simp [forgotPassword, h]

/-- Witness for C8 at the empty directory. -/
theorem forgotPassword_unknown_email_notFound_witness :
    (forgotPassword envA storeEmpty "a@x").result = .error .notFound ∧
    (forgotPassword envA storeEmpty "a@x").store = storeEmpty ∧
    (forgotPassword envA storeEmpty "a@x").sent = [] :=
  forgotPassword_unknown_email_notFound envA storeEmpty "a@x" (by decide)

/-- C3: each failure cause of `resetPassword` — no reset row with the
given id, digest mismatch (at digest-compatible byte lengths), expired
row, or no live (non-soft-deleted) account — yields one and the same
generic `InvalidToken` error; in particular an unknown id yields
`InvalidToken`, never `NotFound`. -/
theorem resetPassword_failures_collapse (env : Env) (s : Store) (id : Nat)
    (tok pw : String)
    (h : s.resets.find? (fun r => r.id == id) = none
      ∨ ∃ r, s.resets.find? (fun r => r.id == id) = some r ∧
          (hashedToken env tok).utf8ByteSize = r.token.utf8ByteSize ∧
          (hashedToken env tok ≠ r.token
            ∨ jsStrLt env.now r.expiredAt = false
            ∨ findActiveById s r.userId = none)) :
    (resetPassword env s id tok pw).result = .error .invalidToken := by
  rcases h with h | ⟨r, hfind, hlen, hfail⟩
  · simp [resetPassword, h]
  · have htse : timingSafeEqual (hashedToken env tok) r.token
        = .ok (hashedToken env tok == r.token) := by
      simp [timingSafeEqual, hlen]
    rcases hfail with hne | hexp | hacc
    · have hb : (hashedToken env tok == r.token) = false := by
        simpa using hne
      simp [resetPassword, hfind, isResetValid, htse, hb]
    · simp [resetPassword, hfind, isResetValid, htse, hexp]
    · cases hb : ((hashedToken env tok == r.token) && jsStrLt env.now r.expiredAt) with
      | false => simp [resetPassword, hfind, isResetValid, htse, hb]
      | true => simp [resetPassword, hfind, isResetValid, htse, hb, hacc]

/-- Witness for C3: a well-formed but unknown id yields `InvalidToken`. -/
theorem resetPassword_failures_collapse_witness :
    (resetPassword envA storeEmpty 9 "tok" "pw").result = .error .invalidToken :=
  resetPassword_failures_collapse envA storeEmpty 9 "tok" "pw" (Or.inl (by decide))

/-- C6: when the account exists and a still-unexpired reset row for it is
already stored, a second `forgotPassword` hits the uniqueness constraint
(modelled from the spec), is mapped from the store's `23505` signal to the
`Conflict` error, creates or overwrites no row, and sends no mail. -/
theorem forgotPassword_pending_conflict (env : Env) (s : Store) (email : String)
    (u : UserEntity)
    (hu : s.users.find? (fun x => x.email == email) = some u)
    (hrow : ∃ r ∈ s.resets, r.userId = u.id ∧ jsStrLt env.now r.expiredAt = true) :
    (forgotPassword env s email).result = .error .conflict ∧
    (forgotPassword env s email).store = s ∧
    (forgotPassword env s email).sent = [] := by
  have hany : s.resets.any (fun r => r.userId == u.id) = true := by
    rcases hrow with ⟨r, hmem, hid, _⟩
    exact List.any_eq_true.mpr ⟨r, hmem, by simp [hid]⟩
  simp [forgotPassword, hu, hany]

/-- Witness for C6: a second request for `userA` while `resetA` is
pending and unexpired. -/
theorem forgotPassword_pending_conflict_witness :
    (forgotPassword envA storeA "a@x").result = .error .conflict ∧
    (forgotPassword envA storeA "a@x").store = storeA ∧
    (forgotPassword envA storeA "a@x").sent = [] :=
  forgotPassword_pending_conflict envA storeA "a@x" userA (by decide)
    ⟨resetA, by decide, by decide, by decide⟩

/-- C7: verifying a token against its own digest succeeds; verifying a
different token whose digest differs (collision-freeness of the keyed
digest, assumed pointwise) fails with an ordinary false; and the digest is
deterministic — any environment with the same digest function and the same
secret assigns the same digest. -/
theorem verify_digest_roundtrip (env : Env) (t tother : String)
    (hne : hashedToken env t ≠ hashedToken env tother)
    (hlen : (hashedToken env t).utf8ByteSize = (hashedToken env tother).utf8ByteSize) :
    verify env (hashedToken env t) t = .ok true ∧
    verify env (hashedToken env t) tother = .ok false ∧
    ∀ env2 : Env, env2.hmacSha256 = env.hmacSha256 → env2.hmacSecret = env.hmacSecret →
      hashedToken env2 t = hashedToken env t := by
  refine ⟨by simp [verify, timingSafeEqual], ?_, ?_⟩
  · have hb : (hashedToken env tother == hashedToken env t) = false := by
      simp only [beq_eq_false_iff_ne, ne_eq]
      exact fun hEq => hne hEq.symm
    simp [verify, timingSafeEqual, hlen.symm, hb]
  · intro env2 h1 h2
    simp [hashedToken, h1, h2]

/-- Witness for C7 on two distinct tokens of equal digest length. -/
theorem verify_digest_roundtrip_witness :
    verify envA (hashedToken envA "aa") "aa" = .ok true ∧
    verify envA (hashedToken envA "aa") "ab" = .ok false ∧
    ∀ env2 : Env, env2.hmacSha256 = envA.hmacSha256 → env2.hmacSecret = envA.hmacSecret →
      hashedToken env2 "aa" = hashedToken envA "aa" :=
  verify_digest_roundtrip envA "aa" "ab" (by decide) (by decide)

/-- C9: if the mail dispatch of `forgotPassword` fails after the reset row
was saved, the mail error is surfaced to the caller while the saved row
persists unchanged in the store, and no email is sent. -/
theorem forgotPassword_mail_failure_row_persists (env : Env) (s : Store)
    (email : String) (u : UserEntity)
    (hu : s.users.find? (fun x => x.email == email) = some u)
    (hfree : s.resets.any (fun r => r.userId == u.id) = false)
    (hsave : env.resetSaveOk = true)
    (hmail : env.mailOk = false) :
    (forgotPassword env s email).result = .error .mailError ∧
    (forgotPassword env s email).store =
      { s with resets := s.resets ++
          [⟨env.freshId, u.id, hashedToken env (plaintextToken env), env.freshExpiry⟩] } ∧
    (forgotPassword env s email).sent = [] := by
  simp [forgotPassword, hu, hfree, hsave, hmail]

/-- Witness for C9: mail failure right after a successful save. -/
theorem forgotPassword_mail_failure_row_persists_witness :
    (forgotPassword envMailFail storeU "a@x").result = .error .mailError ∧
    (forgotPassword envMailFail storeU "a@x").store =
      { storeU with resets := storeU.resets ++
          [⟨envMailFail.freshId, userA.id,
            hashedToken envMailFail (plaintextToken envMailFail), envMailFail.freshExpiry⟩] } ∧
    (forgotPassword envMailFail storeU "a@x").sent = [] :=
  forgotPassword_mail_failure_row_persists envMailFail storeU "a@x" userA
    (by decide) (by decide) (by decide) (by decide)

/-- C10: whenever `resetPassword` fails with the generic `InvalidToken`
error, no state was modified — the store (accounts and reset rows alike)
is exactly the input store and no email was sent. -/
theorem resetPassword_invalidToken_pure (env : Env) (s : Store) (id : Nat)
    (tok pw : String)
    (h : (resetPassword env s id tok pw).result = .error .invalidToken) :
    (resetPassword env s id tok pw).store = s ∧
    (resetPassword env s id tok pw).sent = [] := by
  unfold resetPassword at h ⊢
  cases hf : s.resets.find? (fun r => r.id == id) with
  | none => simp [hf]
  | some r =>
    simp only [hf] at h ⊢
    cases hv : isResetValid env tok r with
    | error e => simp [hv]
    | ok b =>
      cases b with
      | false => simp [hv]
      | true =>
        simp only [hv] at h ⊢
        cases ha : findActiveById s r.userId with
        | none => simp [ha]
        | some u =>
          simp only [ha] at h ⊢
          cases hr : resetUserPassword env s u pw with
          | error e => simp [hr]
          | ok p =>
            rcases p with ⟨res, s1⟩
            simp only [hr] at h ⊢
            cases hm : env.mailOk with
            | false => simp [hm] at h
            | true => simp [hm] at h

/-- Witness for C10: an unknown id fails with `InvalidToken` and touches
nothing. -/
theorem resetPassword_invalidToken_pure_witness :
    (resetPassword envA storeU 3 "x" "p").store = storeU ∧
    (resetPassword envA storeU 3 "x" "p").sent = [] :=
  resetPassword_invalidToken_pure envA storeU 3 "x" "p" (by decide)

end NodditPasswordReset
